import Mathlib

/-!
Verification development for the browser-orchestrator repository.

The definitions below are a shallow embedding of the TypeScript sources:
  - src/server/mcp-client.ts   (namespace McpClient)
  - src/server/orchestrator.ts (namespace Orchestrator)
  - src/server/routes.ts       (namespace Replay, the replay handler)

JavaScript conventions are embedded explicitly: string truthiness is
`s ≠ ""`, optional values are `Option`, thrown exceptions are modelled as
data (`Thrown`) threaded through `Except` or returned error fields, and
JSON argument objects are association lists from keys to string values.
External effects (the language-model oracle, the remote MCP tool provider,
the cooperative cancellation flag) are supplied as environment functions,
so every run of the embedded code is a pure computation.
-/

/-- JavaScript truthiness of a string: truthy iff non-empty. -/
def strTruthy (s : String) : Bool := s != ""

/-- JavaScript truthiness of an optional string: null/undefined and the
empty string are falsy. -/
def optTruthy : Option String → Bool
  | none => false
  | some s => s != ""

/-- Argument objects parsed from JSON: ordered association lists of
string-valued fields. -/
abbrev Args := List (String × String)

/-- Embeds the JavaScript object-spread-plus-assignment idiom
(setting field `k` to `v`): an existing field is overwritten in place,
a missing field is appended. -/
def setKey (k v : String) (a : Args) : Args :=
  if a.any (fun p => p.1 == k) then
    a.map (fun p => if p.1 == k then (k, v) else p)
  else a ++ [(k, v)]

/-- Embeds the JavaScript delete of field `k` on a spread copy of an
argument object. -/
def deleteKey (k : String) (a : Args) : Args :=
  a.filter (fun p => p.1 != k)

/-- Char-list prefix test used to embed the JavaScript string
includes method. -/
def listPrefixOf : List Char → List Char → Bool
  | [], _ => true
  | _ :: _, [] => false
  | a :: as, b :: bs => a == b && listPrefixOf as bs

/-- Char-list infix test used to embed the JavaScript string
includes method. -/
def listInfixOf (needle : List Char) : List Char → Bool
  | [] => needle.isEmpty
  | b :: bs => listPrefixOf needle (b :: bs) || listInfixOf needle bs

/-- Embeds `s.includes(pat)` from JavaScript. -/
def containsSub (s pat : String) : Bool := listInfixOf pat.data s.data

namespace McpClient

/-- One entry of an MCP tool result content array; only the fields the
embedded code inspects (`type`, `text`) are modelled, image payloads are
reached through the opaque screenshot-extraction parameter. -/
structure ContentItem where
  type : String
  text : String
deriving DecidableEq, Repr

/-- A JavaScript thrown value: whether it is an `Error` instance, and its
message (meaningless when not an `Error`). -/
structure Thrown where
  isError : Bool
  msg : String
deriving DecidableEq, Repr

/-- Embeds `error instanceof Error ? error.message : "Unknown error"`
from the catch blocks of mcp-client.ts. -/
def thrownMessage (t : Thrown) : String :=
  if t.isError then t.msg else "Unknown error"

/-- Outcome of an awaited `client.callTool` call: resolution with a
content value (`none` models an absent or non-array `content` field),
or rejection with a thrown value. -/
inductive RemoteOutcome
  | ok (content : Option (List ContentItem))
  | err (t : Thrown)
deriving DecidableEq, Repr

/-- A tool description returned by the provider. -/
structure Tool where
  name : String
  description : String
  parameters : String
deriving DecidableEq, Repr

/-- Outcome of an awaited `client.listTools` call: rejection, or
resolution whose `tools` field is an array (`some`) or not (`none`). -/
inductive ListToolsOutcome
  | err (t : Thrown)
  | respond (tools : Option (List Tool))
deriving DecidableEq, Repr

/-- The mutable fields of the `McpClient` class: whether `this.client`
is non-null, and `this.sessionId`. -/
structure McpState where
  connected : Bool
  sessionId : Option String
deriving DecidableEq, Repr

/-- The case-insensitive character class of the session-id
regex in `McpClient.extractSessionId`. -/
def inSessClass (c : Char) : Bool :=
  (decide ('a' ≤ c) && decide (c ≤ 'f')) ||
  (decide ('A' ≤ c) && decide (c ≤ 'F')) ||
  (decide ('0' ≤ c) && decide (c ≤ '9')) || c == '-'

/-- Case-insensitive literal-prefix match (the pattern is given in lower
case); returns the remaining characters on success. -/
def matchPrefixCI : List Char → List Char → Option (List Char)
  | [], rest => some rest
  | _ :: _, [] => none
  | p :: ps, c :: cs => if c.toLower == p then matchPrefixCI ps cs else none

/-- The literal part of the regex in `McpClient.extractSessionId`. -/
def sessionsPat : List Char := ['s', 'e', 's', 's', 'i', 'o', 'n', 's', '/']

/-- Embeds the JavaScript regex match for the session-id regex: scan left
to right for the first position where the case-insensitive literal is
followed by at least one class character, and return the greedy capture
group. -/
def findSessionsMatch : List Char → Option String
  | [] => none
  | c :: cs =>
    match matchPrefixCI sessionsPat (c :: cs) with
    | some rest =>
      let run := rest.takeWhile inSessClass
      if run.isEmpty then findSessionsMatch cs else some (String.mk run)
    | none => findSessionsMatch cs

/-- The item scan of `McpClient.extractSessionId`: first text item with a
truthy `text` whose text matches the session-id regex. -/
def extractSessionIdGo : List ContentItem → Option String
  | [] => none
  | item :: rest =>
    if item.type == "text" && strTruthy item.text then
      match findSessionsMatch item.text.data with
      | some g => some g
      | none => extractSessionIdGo rest
    else extractSessionIdGo rest

/-- Embeds `McpClient.extractSessionId`; the argument is `none` when the
content value is not an array. -/
def extractSessionId : Option (List ContentItem) → Option String
  | none => none
  | some content => extractSessionIdGo content

/-- Written from the words of claim C10 (not from the source): the
session identity extracted is the captured group of the first text item
containing a substring matching the session-id pattern, scanning items in
order; no identity when the content is not an array or no text item
matches. -/
def claimedSessionExtract (content : Option (List ContentItem)) : Option String :=
  match content with
  | none => none
  | some items =>
    items.findSome? (fun item =>
      if item.type == "text" then findSessionsMatch item.text.data else none)

/-- The function-call result shape of `McpClient.callFunction`:
the original function name and arguments, plus on success a result text
(and possibly a session id and a screenshot), or on failure an error
string. `none` fields embed absent JavaScript object keys. -/
structure McpFnResult where
  function : String
  arguments : Args
  result : Option String
  error : Option String
  sessionId : Option String
  screenshot : Option String
deriving DecidableEq, Repr

/-- Output of one embedded `callFunction` run: the resolved result
object, the client state afterwards, and the name/arguments actually
sent to the provider (`none` when the call never reached the provider). -/
structure CallOutput where
  result : McpFnResult
  state : McpState
  sent : Option (String × Args)
deriving Repr

/-- The body of `McpClient.callFunction` after the connection guard:
session-id injection, the remote call, and response normalization.
`extractShot` stands for `McpClient.extractScreenshot` composed with
`normalizeScreenshot`, which no claim depends on. -/
def callFunctionConnected (st : McpState) (fn : String) (args : Args)
    (remote : RemoteOutcome)
    (extractShot : List ContentItem → Option String) : CallOutput :=
  let argsWithSession : Args :=
    match st.sessionId with
    | some s =>
      if strTruthy s && fn != "browserbase_session_create" then
        setKey "sessionId" s args
      else args
    | none => args
  match remote with
  | .err t =>
    { result := { function := fn, arguments := args, result := none,
                  error := some (thrownMessage t), sessionId := none,
                  screenshot := none },
      state := st, sent := some (fn, argsWithSession) }
  | .ok content =>
    let resultText : String :=
      match content with
      | some items =>
        String.join (items.filterMap (fun i =>
          if i.type == "text" then some i.text else none))
      | none => ""
    let hasTextItem : Bool :=
      match content with
      | some items => items.any (fun i => i.type == "text")
      | none => false
    let extractedFromCreate : Option String :=
      if fn == "browserbase_session_create" && hasTextItem then
        extractSessionId content
      else none
    let newSessionId : Option String :=
      match extractedFromCreate with
      | some m => some m
      | none => st.sessionId
    let rawShot : Option String :=
      match content with
      | some items => extractShot items
      | none => none
    let screenshot : Option String :=
      if optTruthy rawShot then rawShot else none
    { result := { function := fn, arguments := args,
                  result := some resultText, error := none,
                  sessionId := newSessionId, screenshot := screenshot },
      state := { st with sessionId := newSessionId },
      sent := some (fn, argsWithSession) }

/-- Embeds `McpClient.callFunction`: the connection guard (`conn` is the
outcome of `connect()` when `this.client` is null), then the connected
body; every failure is caught and returned as a result object carrying an
error string. -/
def callFunction (st : McpState) (conn : Option Thrown) (fn : String)
    (args : Args) (remote : RemoteOutcome)
    (extractShot : List ContentItem → Option String) : CallOutput :=
  if st.connected then callFunctionConnected st fn args remote extractShot
  else
    match conn with
    | some t =>
      { result := { function := fn, arguments := args, result := none,
                    error := some (thrownMessage t), sessionId := none,
                    screenshot := none },
        state := st, sent := none }
    | none =>
      callFunctionConnected { st with connected := true } fn args remote extractShot

/-- The body of `McpClient.listTools` after the connection guard. -/
def listToolsConnected : ListToolsOutcome → Except Thrown (List Tool)
  | .err _ => .ok []
  | .respond (some ts) => .ok ts
  | .respond none => .ok []

/-- Embeds `McpClient.listTools`: an `Except` result makes a propagated
throw representable (`Except.error`), though the catch-all in the source
converts every failure into an empty list. -/
def listTools (st : McpState) (conn : Option Thrown)
    (resp : ListToolsOutcome) : Except Thrown (List Tool) × McpState :=
  if st.connected then (listToolsConnected resp, st)
  else
    match conn with
    | some _ => (.ok [], st)
    | none => (listToolsConnected resp, { st with connected := true })

/-- The thrown value of the extraction-failure error in
`McpClient.createSession`. -/
def extractFailure : Thrown :=
  { isError := true, msg := "Failed to extract sessionId from response" }

/-- The minted path of `McpClient.createSession`: call the
session-creation tool and parse an identity out of the response. The
`Bool` records that the session-creation tool was invoked. -/
def mintSession (st : McpState) (remote : RemoteOutcome) :
    Except Thrown (String × McpState) × Bool :=
  match remote with
  | .err t => (.error t, true)
  | .ok content =>
    match extractSessionId content with
    | some s =>
      if strTruthy s then (.ok (s, { st with sessionId := some s }), true)
      else (.error extractFailure, true)
    | none => (.error extractFailure, true)

/-- The body of `McpClient.createSession` after the connection guard:
a truthy `replaySessionId` is adopted directly, otherwise a session is
minted remotely. -/
def createSessionConnected (st : McpState) (replaySessionId : Option String)
    (remote : RemoteOutcome) : Except Thrown (String × McpState) × Bool :=
  match replaySessionId with
  | some rid =>
    if strTruthy rid then (.ok (rid, { st with sessionId := some rid }), false)
    else mintSession st remote
  | none => mintSession st remote

/-- Embeds `McpClient.createSession`: connection guard, then adoption or
minting; all failures propagate to the caller (the catch rethrows). -/
def createSession (st : McpState) (conn : Option Thrown)
    (replaySessionId : Option String) (remote : RemoteOutcome) :
    Except Thrown (String × McpState) × Bool :=
  if st.connected then createSessionConnected st replaySessionId remote
  else
    match conn with
    | some t => (.error t, false)
    | none => createSessionConnected { st with connected := true } replaySessionId remote

end McpClient

namespace Orchestrator

/-- One structured tool call emitted by the oracle (arguments already
parsed from JSON). -/
structure ToolCall where
  id : String
  function : String
  arguments : Args
deriving DecidableEq, Repr

/-- One assistant message from the oracle: optional plain-text content
and a (possibly empty) list of tool calls. -/
structure OracleMessage where
  content : Option String
  toolCalls : List ToolCall
deriving DecidableEq, Repr

/-- The fields of a resolved `McpClient.callFunction` promise that the
orchestration loop inspects. -/
structure CallResult where
  error : Option String
  result : String
  sessionId : Option String
  screenshot : Option String
deriving DecidableEq, Repr

/-- One entry of `replayState.actions`: a tool name and its argument
object with the session identity stripped. -/
structure RecordedAction where
  function : String
  arguments : Args
deriving DecidableEq, Repr

/-- One `mcpClient.callFunction` invocation issued by the loop, in issue
order (oracle-emitted tool calls and automatic screenshot calls alike). -/
structure IssuedCall where
  function : String
  arguments : Args
deriving DecidableEq, Repr

/-- The environment of one `Orchestrator.execute` run: the oracle reply
for each iteration (1-based), the resolved result of each
`callFunction` invocation (numbered globally in issue order), and the
value of the cooperative cancellation flag at each poll (numbered
globally in poll order: loop guard, then post-oracle check, repeating). -/
structure Env where
  oracle : Nat → OracleMessage
  mcp : Nat → CallResult
  cancelled : Nat → Bool

/-- The loop-local state of `Orchestrator.execute`: the iteration
counter, the global poll and call cursors, the local `sessionId`
variable, the replay state (`url`, `pages`, `actions`), and two logs the
theorems refer to: all issued calls, and the oracle-emitted tool calls
paired with their results, both in issue order. -/
structure LoopState where
  iterationCount : Nat
  pollIdx : Nat
  callIdx : Nat
  sessionId : String
  url : Option String
  pages : List String
  actions : List RecordedAction
  calls : List IssuedCall
  toolEvents : List (ToolCall × CallResult)
deriving Repr

/-- `const maxIterations = 20` in `Orchestrator.execute`. -/
def maxIterations : Nat := 20

/-- How one `Orchestrator.execute` run ends: a returned success result,
or a thrown error caught at the task boundary. -/
inductive LoopOutcome
  | completed (result : String)
  | thrown (msg : String)
deriving DecidableEq, Repr

/-- Issue one `mcpClient.callFunction` invocation: consume the next
environment result and append to the issued-call log. -/
def issueCall (env : Env) (st : LoopState) (fn : String) (args : Args) :
    CallResult × LoopState :=
  (env.mcp st.callIdx,
   { st with callIdx := st.callIdx + 1,
             calls := st.calls ++ [{ function := fn, arguments := args }] })

/-- Embeds the replay-state capture block of `Orchestrator.execute`
(run only for successful calls): a navigate call with a truthy `url`
argument updates the primary url, the consecutively-deduplicated `pages`
list and the ordered `actions` list; act, extract and screenshot calls
are appended to `actions`; anything else is not recorded. -/
def recordReplay (st : LoopState) (functionName : String)
    (functionArgs : Args) : LoopState :=
  if functionName == "browserbase_stagehand_navigate" &&
      optTruthy (List.lookup "url" functionArgs) then
    let u := (List.lookup "url" functionArgs).getD ""
    let st := if optTruthy st.url then st else { st with url := some u }
    let st :=
      if st.pages.isEmpty || st.pages.getLast? != some u then
        { st with pages := st.pages ++ [u] }
      else st
    { st with actions := st.actions ++
        [{ function := functionName,
           arguments := deleteKey "sessionId" functionArgs }] }
  else if functionName == "browserbase_stagehand_act" ||
      functionName == "browserbase_stagehand_extract" ||
      functionName == "browserbase_screenshot" then
    { st with actions := st.actions ++
        [{ function := functionName,
           arguments := deleteKey "sessionId" functionArgs }] }
  else st

/-- The tools whose successful completion triggers an automatic
screenshot call when the result carried none. -/
def shouldTakeScreenshot (fn : String) : Bool :=
  fn == "browserbase_stagehand_act" ||
  fn == "browserbase_stagehand_navigate" ||
  fn == "browserbase_stagehand_observe"

/-- Embeds the per-tool-call body of `Orchestrator.execute` (the `for`
loop over `message.tool_calls`): invoke the tool; on a truthy error only
the conversation is updated; on success the replay state is captured,
the local session id may be learned, and an automatic screenshot call is
issued when warranted. Conversation messages and log emission carry no
loop-visible state and are not tracked. -/
def processToolCall (env : Env) (st : LoopState) (tc : ToolCall) : LoopState :=
  let (result, st) := issueCall env st tc.function tc.arguments
  let st := { st with toolEvents := st.toolEvents ++ [(tc, result)] }
  if optTruthy result.error then st
  else
    let st :=
      if optTruthy result.sessionId && !strTruthy st.sessionId then
        { st with sessionId := result.sessionId.getD "" }
      else st
    let st := recordReplay st tc.function tc.arguments
    let screenshotData : Option String :=
      if optTruthy result.screenshot then result.screenshot else none
    if screenshotData.isNone && shouldTakeScreenshot tc.function then
      let ssSession : String :=
        if optTruthy result.sessionId then result.sessionId.getD ""
        else st.sessionId
      let (_, st) := issueCall env st "browserbase_screenshot"
        [("sessionId", ssSession)]
      st
    else st

/-- Embeds `const finalResult = message.content || "Task completed"`. -/
def contentOrDefault : Option String → String
  | some s => if s == "" then "Task completed" else s
  | none => "Task completed"

/-- Embeds the code after the `while` loop of `Orchestrator.execute`:
throw a max-iterations error if the cap was reached, otherwise return a
generic success. -/
def exitLoop (st : LoopState) : LoopOutcome × LoopState :=
  if st.iterationCount ≥ maxIterations then
    (.thrown "Max iterations reached", st)
  else (.completed "Task completed", st)

/-- Embeds the `while` loop of `Orchestrator.execute`. The fuel argument
is only a termination device: it is always started at `maxIterations`,
and since every iteration increments `iterationCount`, fuel exhaustion
coincides with the `iterationCount < maxIterations` guard failing. -/
def loopGo (env : Env) : Nat → LoopState → LoopOutcome × LoopState
  | 0, st => exitLoop st
  | fuel + 1, st =>
    if st.iterationCount < maxIterations then
      let c := env.cancelled st.pollIdx
      let st := { st with pollIdx := st.pollIdx + 1 }
      if c then exitLoop st
      else
        let st := { st with iterationCount := st.iterationCount + 1 }
        let message := env.oracle st.iterationCount
        let c2 := env.cancelled st.pollIdx
        let st := { st with pollIdx := st.pollIdx + 1 }
        if c2 then (.thrown "Task cancelled by user", st)
        else if message.toolCalls.length > 0 then
          loopGo env fuel (message.toolCalls.foldl (processToolCall env) st)
        else (.completed (contentOrDefault message.content), st)
    else exitLoop st

/-- Embeds the error-message cleanup in the catch block of
`Orchestrator.execute`. -/
def cleanErrorMessage (errorMessage : String) : String :=
  if containsSub errorMessage "<!DOCTYPE html>" ||
      containsSub errorMessage "<html" then
    if containsSub errorMessage "502" || containsSub errorMessage "HTTP 502" then
      "MCP server is unavailable (502 Bad Gateway). The server may be down or overloaded. Please try again later."
    else if containsSub errorMessage "503" || containsSub errorMessage "HTTP 503" then
      "MCP server is temporarily unavailable (503 Service Unavailable). Please try again later."
    else if containsSub errorMessage "504" || containsSub errorMessage "HTTP 504" then
      "MCP server request timed out (504 Gateway Timeout). Please try again later."
    else
      "MCP server returned an error. The server may be down or misconfigured."
  else if containsSub errorMessage "(HTTP 502)" then
    "MCP server is unavailable (502 Bad Gateway). The server may be down or overloaded."
  else errorMessage

/-- The value `Orchestrator.execute` resolves with. -/
structure ExecResult where
  success : Bool
  result : Option String
  error : Option String
deriving DecidableEq, Repr

/-- Embeds `Orchestrator.execute` from the entry of its `while` loop
(session already created, replay state initialized empty), including the
catch block that converts a thrown error into a failure result. -/
def executeFromLoop (env : Env) (sessionId : String) : ExecResult × LoopState :=
  let st0 : LoopState :=
    { iterationCount := 0, pollIdx := 0, callIdx := 0,
      sessionId := sessionId, url := none, pages := [], actions := [],
      calls := [], toolEvents := [] }
  match loopGo env maxIterations st0 with
  | (.completed r, st) =>
    ({ success := true, result := some r, error := none }, st)
  | (.thrown m, st) =>
    ({ success := false, result := none,
       error := some (cleanErrorMessage m) }, st)

/-- The per-call recording decision of the replay-state capture block
(truthy error already ruled out): which tool calls produce a
`RecordedAction`, and with which arguments. -/
def recordCallDecision (tc : ToolCall) : Option RecordedAction :=
  if tc.function == "browserbase_stagehand_navigate" &&
      optTruthy (List.lookup "url" tc.arguments) then
    some { function := tc.function,
           arguments := deleteKey "sessionId" tc.arguments }
  else if tc.function == "browserbase_stagehand_act" ||
      tc.function == "browserbase_stagehand_extract" ||
      tc.function == "browserbase_screenshot" then
    some { function := tc.function,
           arguments := deleteKey "sessionId" tc.arguments }
  else none

/-- The recording decision as a function of one oracle-emitted tool call
and its result: `none` for truthy-error results and for unrecorded tool
kinds, otherwise the appended `RecordedAction`. -/
def recordEvent (ev : ToolCall × CallResult) : Option RecordedAction :=
  if optTruthy ev.2.error then none
  else recordCallDecision ev.1

end Orchestrator

namespace Replay

open Orchestrator (RecordedAction IssuedCall)

/-- One log entry emitted by the replay handler (level and message). -/
structure LogEntry where
  level : String
  message : String
deriving DecidableEq, Repr

/-- The call the replay handler issues for one recorded action:
`arguments: { ...action.arguments, sessionId }`. -/
def reissue (sid : String) (a : RecordedAction) : IssuedCall :=
  { function := a.function, arguments := setKey "sessionId" sid a.arguments }

/-- Embeds the action loop of the replay handler in
`registerRoutes` (routes.ts): each recorded action is reissued with the
adopted session identity; a truthy per-action error is logged and the
loop continues with the next action. `results` gives the error field of
the resolution of the i-th action call (`none` embeds an absent error
key). -/
def replayLoop (sid : String) (results : Nat → Option String) :
    List RecordedAction → Nat → List IssuedCall × List LogEntry
  | [], _ => ([], [])
  | a :: rest, i =>
    let headLog : LogEntry :=
      { level := "info", message := "Replaying action: " ++ a.function ++ "..." }
    let resLog : LogEntry :=
      if optTruthy (results i) then
        { level := "error",
          message := "Action failed: " ++ (results i).getD "" }
      else
        { level := "success", message := "Action completed: " ++ a.function }
    let (calls, logs) := replayLoop sid results rest (i + 1)
    (reissue sid a :: calls, headLog :: resLog :: logs)

/-- What one replay run did: the terminal status (`none` for completed,
`some msg` for a failure thrown inside the handler), the calls issued in
order, and the logs emitted. -/
structure ReplayResult where
  status : Option String
  calls : List IssuedCall
  logs : List LogEntry
deriving Repr

/-- The navigation call the replay handler issues for a recorded primary
url: `arguments: { url, sessionId }`. -/
def navCall (sid u : String) : IssuedCall :=
  { function := "browserbase_stagehand_navigate",
    arguments := [("url", u), ("sessionId", sid)] }

/-- Embeds the replay body of `registerRoutes` (routes.ts) from after
session adoption: navigate to the recorded primary url when one is
present (a truthy navigation error throws and fails the whole replay),
then run the per-action loop; `navError` is the error field of the
navigation call result. -/
def replayRun (sid : String) (url : Option String)
    (actions : List RecordedAction) (navError : Option String)
    (results : Nat → Option String) : ReplayResult :=
  if optTruthy url then
    let u := url.getD ""
    if optTruthy navError then
      { status := some ("Navigation failed: " ++ navError.getD ""),
        calls := [navCall sid u],
        logs := [{ level := "info", message := "Navigating to " ++ u ++ "..." }] }
    else
      let (calls, logs) := replayLoop sid results actions 0
      { status := none, calls := navCall sid u :: calls,
        logs := { level := "info", message := "Navigating to " ++ u ++ "..." } ::
          { level := "success", message := "Navigated to " ++ u } :: logs }
  else
    let (calls, logs) := replayLoop sid results actions 0
    { status := none, calls := calls, logs := logs }

end Replay

section ConcreteInputs

open Orchestrator

/-- A successful tool-call result whose response already carries a
screenshot (so no automatic screenshot call follows). -/
def okShotResult : CallResult :=
  { error := none, result := "ok", sessionId := none,
    screenshot := some "data:image/png;base64,AAAA" }

/-- A concrete act-style tool call. -/
def actToolCall : ToolCall :=
  { id := "call-1", function := "browserbase_stagehand_act",
    arguments := [("action", "click")] }

/-- A concrete navigation tool call. -/
def navToolCall : ToolCall :=
  { id := "call-1", function := "browserbase_stagehand_navigate",
    arguments := [("url", "https://a.example")] }

/-- Environment for the C1 failing input: the oracle issues one act call
on its first turn, the remote provider always succeeds, and the
cancellation flag is set during the tool-call execution of iteration 1:
it reads false at the loop guard of iteration 1 (poll 0) and at the
post-oracle check (poll 1), and true from poll 2 on (a set-once,
monotone flag). -/
def envC1 : Env :=
  { oracle := fun i =>
      if i = 1 then { content := none, toolCalls := [actToolCall] }
      else { content := some "Done", toolCalls := [] },
    mcp := fun _ => okShotResult,
    cancelled := fun p => decide (2 ≤ p) }

/-- Environment for the C2 counterexample: the oracle issues two
identical consecutive navigation calls in its first turn, every call
succeeds, and the second turn is a plain-text answer. -/
def envC2 : Env :=
  { oracle := fun i =>
      if i = 1 then
        { content := none,
          toolCalls := [navToolCall, { navToolCall with id := "call-2" }] }
      else { content := some "Done", toolCalls := [] },
    mcp := fun _ => okShotResult,
    cancelled := fun _ => false }

/-- Environment for the C4 witness: the oracle replies with a tool call
on every turn, every call succeeds, and cancellation is never
requested. -/
def envC4 : Env :=
  { oracle := fun _ => { content := none, toolCalls := [actToolCall] },
    mcp := fun _ => okShotResult,
    cancelled := fun _ => false }

/-- The result `McpClient.callFunction` resolves with when the remote
call rejects with an `Error` whose message is empty, converted to the
fields the orchestration loop reads. Its error field is present but the
error string is empty, hence JavaScript-falsy. -/
def emptyErrorResult : CallResult :=
  let out := McpClient.callFunction { connected := true, sessionId := some "sid0" }
    none "browserbase_stagehand_act" [("action", "click")]
    (.err { isError := true, msg := "" }) (fun _ => none)
  { error := out.result.error, result := (out.result.result).getD "",
    sessionId := out.result.sessionId, screenshot := out.result.screenshot }

/-- Environment for the C8 counterexample: the oracle issues one act
call whose result carries an empty error string (as produced by
`McpClient.callFunction` for a rejection with an empty `Error` message),
then answers in plain text. -/
def envC8 : Env :=
  { oracle := fun i =>
      if i = 1 then { content := none, toolCalls := [actToolCall] }
      else { content := some "Done", toolCalls := [] },
    mcp := fun k => if k = 0 then emptyErrorResult else okShotResult,
    cancelled := fun _ => false }

/-- A concrete recorded act action for the replay witness. -/
def recActA : RecordedAction :=
  { function := "browserbase_stagehand_act", arguments := [("action", "click")] }

/-- A concrete recorded extract action for the replay witness. -/
def recActB : RecordedAction :=
  { function := "browserbase_stagehand_extract", arguments := [] }

/-- Per-action results for the replay witness: the first action fails,
the rest succeed. -/
def replayResultsW : Nat → Option String :=
  fun i => if i = 0 then some "element not found" else none

end ConcreteInputs

namespace McpClient

theorem findSessionsMatch_ne_empty (cs : List Char) (s : String)
    (h : findSessionsMatch cs = some s) : s ≠ "" := by
  induction cs with
  | nil => simp [findSessionsMatch] at h
  | cons c cs ih =>
    rw [findSessionsMatch] at h
    split at h
    · rename_i rest hm
      by_cases hrun : (rest.takeWhile inSessClass).isEmpty
      · simp only [hrun, if_true] at h
        exact ih h
      · simp only [hrun, Bool.false_eq_true, if_false] at h
        obtain rfl := Option.some.inj h
        intro hempty
        have hdata := congrArg String.data hempty
        simp at hdata
        simp [hdata] at hrun
    · exact ih h

theorem extractSessionIdGo_ne_empty (items : List ContentItem) (s : String)
    (h : extractSessionIdGo items = some s) : s ≠ "" := by
  induction items with
  | nil => simp [extractSessionIdGo] at h
  | cons item rest ih =>
    rw [extractSessionIdGo] at h
    split at h
    · split at h
      · rename_i g hg
        obtain rfl := Option.some.inj h
        exact findSessionsMatch_ne_empty _ _ hg
      · exact ih h
    · exact ih h

theorem extractSessionId_ne_empty (content : Option (List ContentItem))
    (s : String) (h : extractSessionId content = some s) : s ≠ "" := by
  cases content with
  | none => simp [extractSessionId] at h
  | some items => exact extractSessionIdGo_ne_empty items s h

theorem extractSessionIdGo_eq_claimed (items : List ContentItem) :
    extractSessionIdGo items = items.findSome? (fun item =>
      if item.type == "text" then findSessionsMatch item.text.data else none) := by
  induction items with
  | nil => simp [extractSessionIdGo]
  | cons item rest ih =>
    rw [extractSessionIdGo, List.findSome?_cons]
    by_cases ht : item.type == "text"
    · by_cases he : item.text = ""
      · have hdata : item.text.data = [] := by simp [he]
        simp [ht, he, strTruthy, hdata, findSessionsMatch, ih]
      · have : strTruthy item.text = true := by
          simp [strTruthy, he]
        simp only [ht, this, Bool.and_self, if_true, if_pos]
        cases hfs : findSessionsMatch item.text.data with
        | some g => simp [hfs]
        | none => simp [hfs, ih]
    · simp [ht, ih]

end McpClient

theorem bool_eq_false {b : Bool} (h : ¬b = true) : b = false := by
  cases b
  · rfl
  · exact absurd rfl h

theorem strBeqFalse {a b : String} (h : ¬a = b) : (a == b) = false := by
  simp [h]

theorem strBeqTrue {a b : String} (h : a = b) : (a == b) = true := by
  simp [h]

theorem lookup_map_setKey (k v : String) (l : Args)
    (h : l.any (fun p => p.1 == k) = true) :
    List.lookup k (l.map (fun p => if p.1 == k then (k, v) else p)) = some v := by
  induction l with
  | nil => simp at h
  | cons p rest ih =>
    obtain ⟨a, b⟩ := p
    by_cases ha : a = k
    · subst ha
      simp [List.lookup_cons]
    · have h2 : rest.any (fun p => p.1 == k) = true := by
        simp [ha] at h
        simpa using h
      simp only [List.map_cons, strBeqFalse ha, Bool.false_eq_true, if_false,
        List.lookup_cons, strBeqFalse (Ne.symm ha)]
      exact ih h2

theorem lookup_map_setKey_other (k v k' : String) (l : Args) (hk : k' ≠ k) :
    List.lookup k' (l.map (fun p => if p.1 == k then (k, v) else p)) =
      List.lookup k' l := by
  induction l with
  | nil => simp
  | cons p rest ih =>
    obtain ⟨a, b⟩ := p
    by_cases ha : a = k
    · subst ha
      simp only [List.map_cons, strBeqTrue rfl, if_true, List.lookup_cons,
        strBeqFalse hk]
      exact ih
    · by_cases hka : k' = a
      · subst hka
        simp only [List.map_cons, strBeqFalse ha, Bool.false_eq_true, if_false,
          List.lookup_cons, strBeqTrue rfl]
      · simp only [List.map_cons, strBeqFalse ha, Bool.false_eq_true, if_false,
          List.lookup_cons, strBeqFalse hka]
        exact ih

theorem lookup_append_of_not_any (k : String) (l l2 : Args)
    (h : l.any (fun p => p.1 == k) = false) :
    List.lookup k (l ++ l2) = List.lookup k l2 := by
  induction l with
  | nil => simp
  | cons p rest ih =>
    obtain ⟨a, b⟩ := p
    simp only [List.any_cons, Bool.or_eq_false_iff] at h
    have ha : ¬(k = a) := by
      intro hk
      subst hk
      simp at h
    simp only [List.cons_append, List.lookup_cons, strBeqFalse ha]
    exact ih h.2

theorem lookup_append_left_of_any (k : String) (l l2 : Args)
    (h : l.any (fun p => p.1 == k) = true) :
    List.lookup k (l ++ l2) = List.lookup k l := by
  induction l with
  | nil => simp at h
  | cons p rest ih =>
    obtain ⟨a, b⟩ := p
    by_cases ha : k = a
    · simp only [List.cons_append, List.lookup_cons, strBeqTrue ha]
    · have h2 : rest.any (fun p => p.1 == k) = true := by
        simp at h
        rcases h with h | h
        · exact absurd h.symm ha
        · simpa using h
      simp only [List.cons_append, List.lookup_cons, strBeqFalse ha]
      exact ih h2

theorem lookup_setKey_self (k v : String) (l : Args) :
    List.lookup k (setKey k v l) = some v := by
  unfold setKey
  by_cases h : l.any (fun p => p.1 == k) = true
  · rw [if_pos h]
    exact lookup_map_setKey k v l h
  · rw [if_neg h]
    rw [lookup_append_of_not_any k l _ (bool_eq_false h)]
    simp [List.lookup_cons]

theorem lookup_setKey_other (k v k' : String) (l : Args) (hk : k' ≠ k) :
    List.lookup k' (setKey k v l) = List.lookup k' l := by
  unfold setKey
  by_cases h : l.any (fun p => p.1 == k) = true
  · rw [if_pos h]
    exact lookup_map_setKey_other k v k' l hk
  · rw [if_neg h]
    by_cases h2 : l.any (fun p => p.1 == k') = true
    · exact lookup_append_left_of_any k' l _ h2
    · rw [lookup_append_of_not_any k' l _ (bool_eq_false h2)]
      have hall := List.any_eq_false.mp (bool_eq_false h2)
      have hnone : List.lookup k' l = none := by
        simp only [List.lookup_eq_none_iff]
        intro p hp
        have hne := hall p hp
        simp only [beq_iff_eq] at hne
        simp only [bne_iff_ne, ne_eq]
        exact fun hh => hne hh.symm
      simp only [List.lookup_cons, strBeqFalse hk, List.lookup_nil, hnone]

/-- C10: the session identity extracted from a provider response content
list is the captured group of the first text item containing a substring
matching the case-insensitive session-id pattern, scanning items in
order; when the content is not an array or no text item matches, no
identity is extracted, and that is exactly the condition under which the
minted path of createSession fails (with the extraction error, the
session-creation tool having been invoked). -/
theorem claim_C10_session_extraction :
    (∀ content, McpClient.extractSessionId content =
        McpClient.claimedSessionExtract content)
    ∧ McpClient.extractSessionId none = none
    ∧ (∀ (st : McpClient.McpState) (content : Option (List McpClient.ContentItem)),
        ((McpClient.mintSession st (.ok content)).1 =
            .error McpClient.extractFailure
          ↔ McpClient.extractSessionId content = none)
        ∧ (McpClient.mintSession st (.ok content)).2 = true) := by
  refine ⟨?_, rfl, ?_⟩
  · intro content
    cases content with
    | none => rfl
    | some items => exact McpClient.extractSessionIdGo_eq_claimed items
  · intro st content
    refine ⟨?_, ?_⟩
    · cases hex : McpClient.extractSessionId content with
      | none => simp [McpClient.mintSession, hex]
      | some s =>
        have hs : strTruthy s = true := by
          have := McpClient.extractSessionId_ne_empty content s hex
          simp [strTruthy, this]
        simp [McpClient.mintSession, hex, hs]
    · cases hex : McpClient.extractSessionId content with
      | none => simp [McpClient.mintSession, hex]
      | some s =>
        simp only [McpClient.mintSession, hex]
        split <;> rfl

/-- C3 counterexample: with the provider unreachable (the transport
connection attempt throws a connection error), listTools resolves with
an empty list instead of propagating the connection error — even when
the provider would have reported tools. -/
theorem claim_C3_counterexample :
    (McpClient.listTools { connected := false, sessionId := none }
      (some { isError := true, msg := "connect ECONNREFUSED" })
      (.respond (some [{ name := "browserbase_stagehand_navigate",
                         description := "Navigate to a URL",
                         parameters := "obj" }]))).1 = Except.ok [] := rfl

/-- C3 (amended): listTools never throws in any case: it resolves with
the reported tool list when the provider is reachable and reports an
array of tools, and with an empty list in every other case — including
when the provider is unreachable, where the connection error is
swallowed rather than propagated. -/
theorem claim_C3_listTools_amended (st : McpClient.McpState)
    (conn : Option McpClient.Thrown) (resp : McpClient.ListToolsOutcome) :
    (McpClient.listTools st conn resp).1 = Except.ok (
      match st.connected, conn, resp with
      | true, _, .respond (some ts) => ts
      | false, none, .respond (some ts) => ts
      | _, _, _ => []) := by
  obtain ⟨c, sid⟩ := st
  cases c <;> cases conn <;> rcases resp with t | ts
  all_goals try rfl
  all_goals cases ts <;> rfl

/-- C5 counterexample: a transport rejection whose thrown value is an
Error with an empty message resolves to a result object whose error
string is empty, refuting the claim that the error string is always
non-empty. -/
theorem claim_C5_counterexample :
    (McpClient.callFunction { connected := true, sessionId := some "sid0" }
      none "browserbase_stagehand_act" [("action", "click")]
      (.err { isError := true, msg := "" }) (fun _ => none)).result =
    { function := "browserbase_stagehand_act",
      arguments := [("action", "click")], result := none,
      error := some "", sessionId := none, screenshot := none } := rfl

/-- C5 (amended): when the transport or the remote tool fails,
callFunction resolves (it is a total function, never throwing past its
boundary) with a result object that carries an error string — the thrown
Error message, which is empty exactly when that message is empty, or the
fixed text Unknown error for non-Error throws — alongside the original
function name and arguments. -/
theorem claim_C5_callFunction_failures_are_data
    (st : McpClient.McpState) (conn : Option McpClient.Thrown)
    (fn : String) (args : Args)
    (es : List McpClient.ContentItem → Option String) :
    (∀ t : McpClient.Thrown, st.connected = true ∨ conn = none →
      (McpClient.callFunction st conn fn args (.err t) es).result =
        { function := fn, arguments := args, result := none,
          error := some (McpClient.thrownMessage t), sessionId := none,
          screenshot := none })
    ∧ (∀ (t : McpClient.Thrown) (remote : McpClient.RemoteOutcome),
        st.connected = false → conn = some t →
        (McpClient.callFunction st conn fn args remote es).result =
          { function := fn, arguments := args, result := none,
            error := some (McpClient.thrownMessage t), sessionId := none,
            screenshot := none }) := by
  constructor
  · intro t h
    rcases h with h | h
    · simp [McpClient.callFunction, h, McpClient.callFunctionConnected]
    · subst h
      cases hc : st.connected <;>
        simp [McpClient.callFunction, hc, McpClient.callFunctionConnected]
  · intro t remote h hc
    subst hc
    simp [McpClient.callFunction, h]

/-- C5 witness: the amended theorem applied at a connected client whose
remote call rejects with a network timeout Error, and at a disconnected
client whose connection attempt rejects with a non-Error value. -/
theorem claim_C5_witness :
    (McpClient.callFunction { connected := true, sessionId := some "sid9" }
      none "browserbase_stagehand_navigate" [("url", "https://a.example")]
      (.err { isError := true, msg := "network timeout" })
      (fun _ => none)).result =
      { function := "browserbase_stagehand_navigate",
        arguments := [("url", "https://a.example")], result := none,
        error := some (McpClient.thrownMessage
          { isError := true, msg := "network timeout" }),
        sessionId := none, screenshot := none }
    ∧ (McpClient.callFunction { connected := false, sessionId := none }
        (some { isError := false, msg := "ignored" })
        "browserbase_stagehand_act" [] (.ok none) (fun _ => none)).result =
      { function := "browserbase_stagehand_act", arguments := [],
        result := none,
        error := some (McpClient.thrownMessage
          { isError := false, msg := "ignored" }),
        sessionId := none, screenshot := none } :=
  ⟨(claim_C5_callFunction_failures_are_data _ _ _ _ _).1 _ (Or.inl rfl),
   (claim_C5_callFunction_failures_are_data _ _ _ _ _).2 _ _ rfl rfl⟩

/-- C6: createSession given an adopted (non-empty, hence JS-truthy)
identity returns exactly that identity, sets it as the held identity,
and does not invoke the session-creation tool; given no identity it
invokes the session-creation tool and throws the session-creation error
exactly when no identity can be extracted from the response; the
connection guard passes through to this body (establishing the transport
first when the client is not yet connected). -/
theorem claim_C6_createSession :
    (∀ (st : McpClient.McpState) (rid : String)
        (remote : McpClient.RemoteOutcome), strTruthy rid = true →
      McpClient.createSessionConnected st (some rid) remote =
        (.ok (rid, { st with sessionId := some rid }), false))
    ∧ (∀ (st : McpClient.McpState)
          (content : Option (List McpClient.ContentItem)),
        McpClient.extractSessionId content = none →
        McpClient.createSessionConnected st none (.ok content) =
          (.error McpClient.extractFailure, true))
    ∧ (∀ (st : McpClient.McpState)
          (content : Option (List McpClient.ContentItem)) (s : String),
        McpClient.extractSessionId content = some s →
        McpClient.createSessionConnected st none (.ok content) =
          (.ok (s, { st with sessionId := some s }), true))
    ∧ (∀ (st : McpClient.McpState) (conn : Option McpClient.Thrown)
          (rid : Option String) (remote : McpClient.RemoteOutcome),
        st.connected = true →
        McpClient.createSession st conn rid remote =
          McpClient.createSessionConnected st rid remote)
    ∧ (∀ (st : McpClient.McpState) (rid : Option String)
          (remote : McpClient.RemoteOutcome),
        st.connected = false →
        McpClient.createSession st none rid remote =
          McpClient.createSessionConnected
            { st with connected := true } rid remote) := by
  refine ⟨?_, ?_, ?_, ?_, ?_⟩
  · intro st rid remote h
    simp [McpClient.createSessionConnected, h]
  · intro st content h
    simp [McpClient.createSessionConnected, McpClient.mintSession, h]
  · intro st content s h
    have hs : strTruthy s = true := by
      have := McpClient.extractSessionId_ne_empty content s h
      simp [strTruthy, this]
    simp [McpClient.createSessionConnected, McpClient.mintSession, h, hs]
  · intro st conn rid remote h
    simp [McpClient.createSession, h]
  · intro st rid remote h
    simp [McpClient.createSession, h]

/-- C6 witness: the theorem applied at an adopted replay identity, at a
minted session whose response carries no extractable identity, and at a
minted session whose response carries one. -/
theorem claim_C6_witness :
    McpClient.createSessionConnected { connected := true, sessionId := none }
      (some "1f2e3d4c-aaaa-bbbb-cccc-000011112222") (.ok none) =
      (.ok ("1f2e3d4c-aaaa-bbbb-cccc-000011112222",
        { connected := true,
          sessionId := some "1f2e3d4c-aaaa-bbbb-cccc-000011112222" }), false)
    ∧ McpClient.createSessionConnected { connected := true, sessionId := none }
        none (.ok (some [{ type := "text", text := "no id here" }])) =
      (.error McpClient.extractFailure, true)
    ∧ McpClient.createSessionConnected { connected := true, sessionId := none }
        none
        (.ok (some [{ type := "text", text := "Created at sessions/abc-123" }])) =
      (.ok ("abc-123", { connected := true, sessionId := some "abc-123" }),
        true) :=
  ⟨(claim_C6_createSession).1 _ _ _ (by decide),
   (claim_C6_createSession).2.1 _ _ (by decide),
   (claim_C6_createSession).2.2.1 _ _ _ (by decide)⟩

/-- C7: for a call made while a held session identity is truthy and the
function is not the session-creation tool, the arguments sent to the
provider equal the caller arguments with the sessionId field set to the
held identity and every other field unchanged; when the function is the
session-creation tool, or no identity is held, the caller arguments are
sent unchanged. -/
theorem claim_C7_session_injection
    (st : McpClient.McpState) (args : Args)
    (remote : McpClient.RemoteOutcome)
    (es : List McpClient.ContentItem → Option String) :
    (∀ (fn s : String), st.sessionId = some s → strTruthy s = true →
      fn ≠ "browserbase_session_create" →
      (McpClient.callFunctionConnected st fn args remote es).sent =
          some (fn, setKey "sessionId" s args)
        ∧ List.lookup "sessionId" (setKey "sessionId" s args) = some s
        ∧ ∀ k, k ≠ "sessionId" →
            List.lookup k (setKey "sessionId" s args) = List.lookup k args)
    ∧ (∀ s, st.sessionId = some s →
        (McpClient.callFunctionConnected st
            "browserbase_session_create" args remote es).sent =
          some ("browserbase_session_create", args))
    ∧ (∀ fn, st.sessionId = none →
        (McpClient.callFunctionConnected st fn args remote es).sent =
          some (fn, args)) := by
  refine ⟨?_, ?_, ?_⟩
  · intro fn s hs htru hfn
    refine ⟨?_, lookup_setKey_self _ _ _,
      fun k hk => lookup_setKey_other _ _ _ _ hk⟩
    have hbne : (fn != "browserbase_session_create") = true := by
      simp [hfn]
    cases remote <;>
      simp [McpClient.callFunctionConnected, hs, htru, hbne]
  · intro s hs
    cases remote <;> simp [McpClient.callFunctionConnected, hs]
  · intro fn hs
    cases remote <;> simp [McpClient.callFunctionConnected, hs]

/-- C7 witness: the theorem applied at a held identity and an act call
(the sessionId field is injected, the action field is untouched), at the
session-creation tool (arguments pass through unchanged), and at a call
with no held identity. -/
theorem claim_C7_witness :
    (McpClient.callFunctionConnected
      { connected := true, sessionId := some "abc-123" }
      "browserbase_stagehand_act" [("action", "click")] (.ok none)
      (fun _ => none)).sent =
        some ("browserbase_stagehand_act",
          setKey "sessionId" "abc-123" [("action", "click")])
    ∧ List.lookup "sessionId"
        (setKey "sessionId" "abc-123" [("action", "click")]) = some "abc-123"
    ∧ List.lookup "action"
        (setKey "sessionId" "abc-123" [("action", "click")]) =
        List.lookup "action" [("action", "click")]
    ∧ (McpClient.callFunctionConnected
        { connected := true, sessionId := some "abc-123" }
        "browserbase_session_create" [("action", "click")] (.ok none)
        (fun _ => none)).sent =
        some ("browserbase_session_create", [("action", "click")])
    ∧ (McpClient.callFunctionConnected
        { connected := true, sessionId := none }
        "browserbase_stagehand_act" [("action", "click")] (.ok none)
        (fun _ => none)).sent =
        some ("browserbase_stagehand_act", [("action", "click")]) := by
  have h := claim_C7_session_injection
    { connected := true, sessionId := some "abc-123" }
    [("action", "click")] (.ok none) (fun _ => none)
  have h1 := h.1 "browserbase_stagehand_act" "abc-123" rfl (by decide)
    (by decide)
  refine ⟨h1.1, h1.2.1, h1.2.2 "action" (by decide), h.2.1 "abc-123" rfl, ?_⟩
  exact (claim_C7_session_injection
    { connected := true, sessionId := none }
    [("action", "click")] (.ok none) (fun _ => none)).2.2
    "browserbase_stagehand_act" rfl

theorem recordReplay_actions (st : Orchestrator.LoopState)
    (tc : Orchestrator.ToolCall) :
    (Orchestrator.recordReplay st tc.function tc.arguments).actions =
      st.actions ++ (Orchestrator.recordCallDecision tc).toList := by
  unfold Orchestrator.recordReplay Orchestrator.recordCallDecision
  split_ifs <;> (try simp) <;> (try (split <;> simp))

theorem recordReplay_toolEvents (st : Orchestrator.LoopState)
    (fn : String) (args : Args) :
    (Orchestrator.recordReplay st fn args).toolEvents = st.toolEvents := by
  unfold Orchestrator.recordReplay
  split_ifs <;> (try simp) <;> (try (split <;> simp))

theorem recordReplay_callIdx (st : Orchestrator.LoopState)
    (fn : String) (args : Args) :
    (Orchestrator.recordReplay st fn args).callIdx = st.callIdx := by
  unfold Orchestrator.recordReplay
  split_ifs <;> (try simp) <;> (try (split <;> simp))

theorem recordReplay_iterationCount (st : Orchestrator.LoopState)
    (fn : String) (args : Args) :
    (Orchestrator.recordReplay st fn args).iterationCount =
      st.iterationCount := by
  unfold Orchestrator.recordReplay
  split_ifs <;> (try simp) <;> (try (split <;> simp))

theorem recordReplay_pollIdx (st : Orchestrator.LoopState)
    (fn : String) (args : Args) :
    (Orchestrator.recordReplay st fn args).pollIdx = st.pollIdx := by
  unfold Orchestrator.recordReplay
  split_ifs <;> (try simp) <;> (try (split <;> simp))

theorem processToolCall_toolEvents (env : Orchestrator.Env)
    (st : Orchestrator.LoopState) (tc : Orchestrator.ToolCall) :
    (Orchestrator.processToolCall env st tc).toolEvents =
      st.toolEvents ++ [(tc, env.mcp st.callIdx)] := by
  unfold Orchestrator.processToolCall Orchestrator.issueCall
  dsimp only
  split_ifs <;> simp [recordReplay_toolEvents]

theorem processToolCall_actions (env : Orchestrator.Env)
    (st : Orchestrator.LoopState) (tc : Orchestrator.ToolCall) :
    (Orchestrator.processToolCall env st tc).actions =
      st.actions ++
        (Orchestrator.recordEvent (tc, env.mcp st.callIdx)).toList := by
  unfold Orchestrator.processToolCall Orchestrator.issueCall
    Orchestrator.recordEvent
  dsimp only
  split_ifs <;> simp [recordReplay_actions]

theorem processToolCall_iterationCount (env : Orchestrator.Env)
    (st : Orchestrator.LoopState) (tc : Orchestrator.ToolCall) :
    (Orchestrator.processToolCall env st tc).iterationCount =
      st.iterationCount := by
  unfold Orchestrator.processToolCall Orchestrator.issueCall
  dsimp only
  split_ifs <;> simp [recordReplay_iterationCount]

theorem exitLoop_snd (st : Orchestrator.LoopState) :
    (Orchestrator.exitLoop st).2 = st := by
  unfold Orchestrator.exitLoop
  split <;> rfl

theorem foldl_processToolCall_iterationCount (env : Orchestrator.Env)
    (tcs : List Orchestrator.ToolCall) :
    ∀ st : Orchestrator.LoopState,
      (tcs.foldl (Orchestrator.processToolCall env) st).iterationCount =
        st.iterationCount := by
  induction tcs with
  | nil => intro st; rfl
  | cons tc rest ih =>
    intro st
    rw [List.foldl_cons, ih, processToolCall_iterationCount]

theorem foldl_processToolCall_actions_inv (env : Orchestrator.Env)
    (tcs : List Orchestrator.ToolCall) :
    ∀ st : Orchestrator.LoopState,
      st.actions = st.toolEvents.filterMap Orchestrator.recordEvent →
      (tcs.foldl (Orchestrator.processToolCall env) st).actions =
        ((tcs.foldl (Orchestrator.processToolCall env) st).toolEvents).filterMap
          Orchestrator.recordEvent := by
  induction tcs with
  | nil => intro st h; exact h
  | cons tc rest ih =>
    intro st h
    rw [List.foldl_cons]
    apply ih
    rw [processToolCall_actions, processToolCall_toolEvents, h,
      List.filterMap_append]
    cases hrec : Orchestrator.recordEvent (tc, env.mcp st.callIdx) <;>
      simp [hrec]

theorem loopGo_actions_inv (env : Orchestrator.Env) :
    ∀ (fuel : Nat) (st : Orchestrator.LoopState),
      st.actions = st.toolEvents.filterMap Orchestrator.recordEvent →
      (Orchestrator.loopGo env fuel st).2.actions =
        ((Orchestrator.loopGo env fuel st).2.toolEvents).filterMap
          Orchestrator.recordEvent := by
  intro fuel
  induction fuel with
  | zero =>
    intro st h
    rw [Orchestrator.loopGo, exitLoop_snd]
    exact h
  | succ fuel ih =>
    intro st h
    rw [Orchestrator.loopGo]
    by_cases hlt : st.iterationCount < Orchestrator.maxIterations
    · rw [if_pos hlt]
      by_cases hc : env.cancelled st.pollIdx
      · rw [if_pos hc, exitLoop_snd]
        exact h
      · rw [if_neg hc]
        by_cases hc2 : env.cancelled (st.pollIdx + 1)
        · rw [if_pos hc2]
          exact h
        · rw [if_neg hc2]
          by_cases hlen :
              0 < (env.oracle (st.iterationCount + 1)).toolCalls.length
          · rw [if_pos hlen]
            exact ih _ (foldl_processToolCall_actions_inv env _ _ h)
          · rw [if_neg hlen]
            exact h
    · rw [if_neg hlt, exitLoop_snd]
      exact h

theorem loopGo_max (env : Orchestrator.Env)
    (h1 : ∀ i, (env.oracle i).toolCalls ≠ [])
    (h2 : ∀ p, env.cancelled p = false) :
    ∀ (fuel : Nat) (st : Orchestrator.LoopState),
      st.iterationCount + fuel = Orchestrator.maxIterations →
      (Orchestrator.loopGo env fuel st).1 =
          .thrown "Max iterations reached" ∧
        (Orchestrator.loopGo env fuel st).2.iterationCount =
          Orchestrator.maxIterations := by
  intro fuel
  induction fuel with
  | zero =>
    intro st hst
    have hge : st.iterationCount ≥ Orchestrator.maxIterations := by omega
    rw [Orchestrator.loopGo]
    unfold Orchestrator.exitLoop
    rw [if_pos hge]
    refine ⟨rfl, ?_⟩
    show st.iterationCount = Orchestrator.maxIterations
    omega
  | succ fuel ih =>
    intro st hst
    have hlt : st.iterationCount < Orchestrator.maxIterations := by omega
    have hlen :
        0 < (env.oracle (st.iterationCount + 1)).toolCalls.length :=
      List.length_pos.mpr (h1 _)
    rw [Orchestrator.loopGo, if_pos hlt]
    simp only [h2, Bool.false_eq_true, if_false, gt_iff_lt]
    rw [if_pos hlen]
    apply ih
    rw [foldl_processToolCall_iterationCount]
    show st.iterationCount + 1 + fuel = Orchestrator.maxIterations
    omega

theorem executeFromLoop_snd (env : Orchestrator.Env) (sid : String) :
    (Orchestrator.executeFromLoop env sid).2 =
      (Orchestrator.loopGo env Orchestrator.maxIterations
        { iterationCount := 0, pollIdx := 0, callIdx := 0, sessionId := sid,
          url := none, pages := [], actions := [], calls := [],
          toolEvents := [] }).2 := by
  unfold Orchestrator.executeFromLoop
  rcases h : Orchestrator.loopGo env Orchestrator.maxIterations
    { iterationCount := 0, pollIdx := 0, callIdx := 0, sessionId := sid,
      url := none, pages := [], actions := [], calls := [],
      toolEvents := [] } with ⟨out, st⟩
  cases out <;> simp [h]

theorem filterMap_recordEvent_eq
    (l : List (Orchestrator.ToolCall × Orchestrator.CallResult)) :
    l.filterMap Orchestrator.recordEvent =
      (l.filter (fun ev => !(optTruthy ev.2.error))).filterMap
        (fun ev => Orchestrator.recordCallDecision ev.1) := by
  induction l with
  | nil => rfl
  | cons ev rest ih =>
    by_cases he : optTruthy ev.2.error
    · simp [List.filterMap_cons, List.filter_cons, he,
        Orchestrator.recordEvent, ih]
    · simp [List.filterMap_cons, List.filter_cons, he,
        Orchestrator.recordEvent, ih]

/-- C1 (code bug): evaluating the embedded execute loop at the failing
input envC1 — cancellation requested during tool-call execution of
iteration 1 (the flag is false at polls 0 and 1 and true from poll 2 on,
i.e. a set-once flag) — the loop observes the flag at the top-of-loop
checkpoint and exits through the success return: the task resolves with
success true and result Task completed instead of a failed status with a
cancellation-specific error; only the one pre-cancellation tool call was
issued (no further tool calls after the checkpoint). -/
theorem claim_C1_cancellation_code_bug :
    (Orchestrator.executeFromLoop envC1 "sid0").1 =
      { success := true, result := some "Task completed", error := none }
    ∧ (Orchestrator.executeFromLoop envC1 "sid0").2.calls =
      [{ function := "browserbase_stagehand_act",
         arguments := [("action", "click")] }]
    ∧ envC1.cancelled 0 = false ∧ envC1.cancelled 1 = false
    ∧ envC1.cancelled 2 = true ∧ envC1.cancelled 3 = true := by
  decide

/-- C2 counterexample: a run in which the oracle issues two identical
consecutive navigation calls, both successful: both appear in the
recorded actions — consecutive identical navigations are NOT
deduplicated in the Recorded Actions (only the auxiliary pages list is
deduplicated), refuting the claim as stated. -/
theorem claim_C2_counterexample :
    (Orchestrator.executeFromLoop envC2 "sid0").2.toolEvents.map
        (fun ev => (ev.1.function, ev.1.arguments, ev.2.error)) =
      [("browserbase_stagehand_navigate",
        [("url", "https://a.example")], none),
       ("browserbase_stagehand_navigate",
        [("url", "https://a.example")], none)]
    ∧ (Orchestrator.executeFromLoop envC2 "sid0").2.actions =
      [{ function := "browserbase_stagehand_navigate",
         arguments := [("url", "https://a.example")] },
       { function := "browserbase_stagehand_navigate",
         arguments := [("url", "https://a.example")] }]
    ∧ (Orchestrator.executeFromLoop envC2 "sid0").2.pages =
      ["https://a.example"] := by
  decide

/-- C2 (amended): in every execution, the Recorded Actions equal, element
for element and in the same order, the image under the recording decision
of the oracle-issued tool calls paired with their results, taken in the
exact order the loop issued them — no reordering, no drops of recordable
successful calls, and no deduplication of any kind in the recorded
actions (consecutive identical navigations are each recorded; only the
auxiliary pages list deduplicates consecutive duplicates). -/
theorem claim_C2_trace_order (env : Orchestrator.Env) (sid : String) :
    (Orchestrator.executeFromLoop env sid).2.actions =
      ((Orchestrator.executeFromLoop env sid).2.toolEvents).filterMap
        Orchestrator.recordEvent := by
  rw [executeFromLoop_snd]
  exact loopGo_actions_inv env Orchestrator.maxIterations _ (by simp)

/-- C4: whenever the oracle replies with at least one tool call on every
turn and cancellation is never requested, the embedded execute loop
performs exactly the fixed cap of 20 oracle turns (within the 15 to 20
range stated) and resolves with a failed result whose error is the
max-iterations error; the loop is a total function, so it cannot hang. -/
theorem claim_C4_iteration_cap (env : Orchestrator.Env) (sid : String)
    (h1 : ∀ i, (env.oracle i).toolCalls ≠ [])
    (h2 : ∀ p, env.cancelled p = false) :
    (Orchestrator.executeFromLoop env sid).1 =
      { success := false, result := none,
        error := some "Max iterations reached" }
    ∧ (Orchestrator.executeFromLoop env sid).2.iterationCount =
      Orchestrator.maxIterations := by
  have key := loopGo_max env h1 h2 Orchestrator.maxIterations
    { iterationCount := 0, pollIdx := 0, callIdx := 0, sessionId := sid,
      url := none, pages := [], actions := [], calls := [], toolEvents := [] }
    (by simp)
  have hcl : Orchestrator.cleanErrorMessage "Max iterations reached" =
      "Max iterations reached" := by decide
  unfold Orchestrator.executeFromLoop
  dsimp only
  rcases hE : Orchestrator.loopGo env Orchestrator.maxIterations
    { iterationCount := 0, pollIdx := 0, callIdx := 0, sessionId := sid,
      url := none, pages := [], actions := [], calls := [], toolEvents := [] }
    with ⟨out, stf⟩
  rw [hE] at key
  obtain ⟨k1, k2⟩ := key
  simp only at k1 k2
  subst k1
  exact ⟨by simp [hcl], by simpa using k2⟩

/-- C4 witness: the theorem applied at the concrete environment envC4,
whose oracle issues an act call on every turn and whose cancellation
flag is never set. -/
theorem claim_C4_witness :
    (Orchestrator.executeFromLoop envC4 "sid0").1 =
      { success := false, result := none,
        error := some "Max iterations reached" }
    ∧ (Orchestrator.executeFromLoop envC4 "sid0").2.iterationCount =
      Orchestrator.maxIterations :=
  claim_C4_iteration_cap envC4 "sid0" (fun i => by simp [envC4, actToolCall])
    (fun p => rfl)

/-- C8 counterexample: a run whose single act call resolves with a result
that carries an error field holding the empty string — exactly what
callFunction produces for a rejection with an empty Error message, as
the emptyErrorResult definition shows — and the loop, testing the error
with JavaScript truthiness, records the action anyway: the trace
contains a Recorded Action for a call whose result carried an error. -/
theorem claim_C8_counterexample :
    emptyErrorResult.error = some ""
    ∧ (Orchestrator.executeFromLoop envC8 "sid0").2.toolEvents =
      [(actToolCall, emptyErrorResult)]
    ∧ (Orchestrator.executeFromLoop envC8 "sid0").2.actions =
      [{ function := "browserbase_stagehand_act",
         arguments := [("action", "click")] }] := by
  decide

/-- C8 (amended): in every execution, the Recorded Actions are exactly
the recording decision applied to those oracle-issued tool calls whose
result carries no truthy (non-empty) error, in issue order: a call whose
result carries a non-empty error string contributes no Recorded Action,
and a trace contains exactly the recordable calls whose error field was
absent or empty. -/
theorem claim_C8_failed_calls_not_recorded (env : Orchestrator.Env)
    (sid : String) :
    (Orchestrator.executeFromLoop env sid).2.actions =
      (((Orchestrator.executeFromLoop env sid).2.toolEvents).filter
          (fun ev => !(optTruthy ev.2.error))).filterMap
        (fun ev => Orchestrator.recordCallDecision ev.1) := by
  rw [executeFromLoop_snd, ← filterMap_recordEvent_eq]
  exact loopGo_actions_inv env Orchestrator.maxIterations _ (by simp)

theorem replayLoop_calls (sid : String) (results : Nat → Option String) :
    ∀ (actions : List Orchestrator.RecordedAction) (i0 : Nat),
      (Replay.replayLoop sid results actions i0).1 =
        actions.map (Replay.reissue sid) := by
  intro actions
  induction actions with
  | nil => intro i0; rfl
  | cons a rest ih =>
    intro i0
    rw [Replay.replayLoop, List.map_cons]
    simp [ih]

theorem replayLoop_err_mem (sid : String) (results : Nat → Option String) :
    ∀ (actions : List Orchestrator.RecordedAction) (i0 i : Nat)
      (a : Orchestrator.RecordedAction),
      actions.get? i = some a → optTruthy (results (i0 + i)) = true →
      ({ level := "error",
         message := "Action failed: " ++ (results (i0 + i)).getD "" } :
          Replay.LogEntry) ∈ (Replay.replayLoop sid results actions i0).2 := by
  intro actions
  induction actions with
  | nil =>
    intro i0 i a h
    simp at h
  | cons b rest ih =>
    intro i0 i a h htr
    cases i with
    | zero =>
      rw [Replay.replayLoop]
      simp only [Nat.add_zero] at htr ⊢
      simp [htr]
    | succ i =>
      rw [Replay.replayLoop]
      have hsh : i0 + (i + 1) = (i0 + 1) + i := by omega
      rw [hsh] at htr ⊢
      have := ih (i0 + 1) i a (by simpa using h) htr
      simp [this]

/-- C9: whenever a replay reaches its action phase — no recorded primary
url, or a truthy url whose navigation does not fail — every recorded
action is reissued with the adopted session identity, in recorded order,
for every assignment of per-action outcomes (including the very first
action failing); and every failing action leaves an error log entry. -/
theorem claim_C9_replay_best_effort :
    (∀ (sid : String) (actions : List Orchestrator.RecordedAction)
        (navError : Option String) (results : Nat → Option String),
      (Replay.replayRun sid none actions navError results).calls =
        actions.map (Replay.reissue sid))
    ∧ (∀ (sid u : String) (actions : List Orchestrator.RecordedAction)
          (navError : Option String) (results : Nat → Option String),
        strTruthy u = true → optTruthy navError = false →
        (Replay.replayRun sid (some u) actions navError results).calls =
          Replay.navCall sid u :: actions.map (Replay.reissue sid))
    ∧ (∀ (sid : String) (actions : List Orchestrator.RecordedAction)
          (navError : Option String) (results : Nat → Option String)
          (i : Nat) (a : Orchestrator.RecordedAction),
        actions.get? i = some a → optTruthy (results i) = true →
        ({ level := "error",
           message := "Action failed: " ++ (results i).getD "" } :
            Replay.LogEntry)
          ∈ (Replay.replayRun sid none actions navError results).logs)
    ∧ (∀ (sid u : String) (actions : List Orchestrator.RecordedAction)
          (navError : Option String) (results : Nat → Option String)
          (i : Nat) (a : Orchestrator.RecordedAction),
        strTruthy u = true → optTruthy navError = false →
        actions.get? i = some a → optTruthy (results i) = true →
        ({ level := "error",
           message := "Action failed: " ++ (results i).getD "" } :
            Replay.LogEntry)
          ∈ (Replay.replayRun sid (some u) actions navError results).logs) := by
  refine ⟨?_, ?_, ?_, ?_⟩
  · intro sid actions navError results
    unfold Replay.replayRun
    simp [optTruthy, replayLoop_calls]
  · intro sid u actions navError results hu hnav
    unfold Replay.replayRun
    have hu2 : optTruthy (some u) = true := by simpa [optTruthy, strTruthy] using hu
    rw [if_pos hu2, if_neg (by simp [hnav])]
    simp [replayLoop_calls]
  · intro sid actions navError results i a hget htr
    unfold Replay.replayRun
    simp only [optTruthy, Bool.false_eq_true, if_false]
    have := replayLoop_err_mem sid results actions 0 i a hget
      (by simpa using htr)
    simpa using this
  · intro sid u actions navError results i a hu hnav hget htr
    unfold Replay.replayRun
    have hu2 : optTruthy (some u) = true := by simpa [optTruthy, strTruthy] using hu
    rw [if_pos hu2, if_neg (by simp [hnav])]
    have hm := replayLoop_err_mem sid results actions 0 i a hget
      (by simpa using htr)
    have h0 : ({ level := "error",
                 message := "Action failed: " ++ (results i).getD "" } :
        Replay.LogEntry) ∈ (Replay.replayLoop sid results actions 0).2 := by
      simpa using hm
    simp [h0]

/-- C9 witness: the theorem applied at a concrete replay — a recorded
primary url whose navigation succeeds, two recorded actions whose first
reissue fails — showing the navigation call and both action calls are
issued in order and the failure is logged. -/
theorem claim_C9_witness :
    (Replay.replayRun "s1" (some "https://a.example") [recActA, recActB]
        none replayResultsW).calls =
      Replay.navCall "s1" "https://a.example" ::
        List.map (Replay.reissue "s1") [recActA, recActB]
    ∧ ({ level := "error",
         message := "Action failed: " ++ (replayResultsW 0).getD "" } :
          Replay.LogEntry)
        ∈ (Replay.replayRun "s1" (some "https://a.example")
            [recActA, recActB] none replayResultsW).logs :=
  ⟨claim_C9_replay_best_effort.2.1 "s1" "https://a.example"
     [recActA, recActB] none replayResultsW (by decide) (by decide),
   claim_C9_replay_best_effort.2.2.2 "s1" "https://a.example"
     [recActA, recActB] none replayResultsW 0 recActA (by decide)
     (by decide) (by decide) (by decide)⟩
